import Mathlib

/-!
Verification of the quadtree repository (`src/quadtree.py`).

The file shallowly embeds the dynamic Python values flowing through the
module, the `QuadTree.from_list` and `QuadTree.from_file` constructors, the
`depth` property, and the `TkQuadTree.draw` rendering traversal, and settles
the specification's claims about them.
-/

namespace Quadtree

/-- Dynamic Python values as they occur in `quadtree.py`: integers, lists,
`QuadTree` instances (constructor argument order `hg`, `hd`, `bd`, `bg`),
and `None` (the implicit return value of `from_list` on non-list input). -/
inductive PyVal : Type where
  | int : Int → PyVal
  | list : List PyVal → PyVal
  | tree : PyVal → PyVal → PyVal → PyVal → PyVal
  | none : PyVal

/-- The runtime test `isinstance(v, list)`. -/
def PyVal.isList : PyVal → Bool
  | .list _ => true
  | _ => false

/-- Exceptions `quadtree.py` can raise: `IndexError` from `data[0]` on an
empty list, `TypeError` from calling `QuadTree(*data)` with arity other
than 4, `ValueError` from unpacking the generator into `hg, hd, bd, bg`,
an OS error from `open`, and an error of `eval` on text that is not a
valid literal. -/
inductive PyErr : Type where
  | indexError : PyErr
  | typeError : PyErr
  | valueError : PyErr
  | ioError : PyErr
  | parseError : PyErr
deriving DecidableEq, Repr

/-- `QuadTree.from_list(data)`.  `data[0]` raises `IndexError` on `[]`.
If `data[0]` is a list, the four children are obtained by unpacking a
generator of recursive calls: Python evaluates the first `min(len, 5)`
items left to right (propagating their exceptions) and raises `ValueError`
unless there are exactly 4.  Otherwise `QuadTree(*data)` takes the four
elements as children exactly as they are (`TypeError` unless exactly 4,
and no check of the values).  A non-list argument falls through the single
`isinstance` test and the function returns `None`. -/
def from_list : PyVal → Except PyErr PyVal
  | .list [] => .error .indexError
  | .list (a :: rest) =>
    if a.isList then
      match rest with
      | [] => do
          let _ ← from_list a
          .error .valueError
      | [b] => do
          let _ ← from_list a
          let _ ← from_list b
          .error .valueError
      | [b, c] => do
          let _ ← from_list a
          let _ ← from_list b
          let _ ← from_list c
          .error .valueError
      | [b, c, d] => do
          let ta ← from_list a
          let tb ← from_list b
          let tc ← from_list c
          let td ← from_list d
          .ok (.tree ta tb tc td)
      | b :: c :: d :: e :: _ => do
          let _ ← from_list a
          let _ ← from_list b
          let _ ← from_list c
          let _ ← from_list d
          let _ ← from_list e
          .error .valueError
    else
      match rest with
      | [b, c, d] => .ok (.tree a b c d)
      | _ => .error .typeError
  | _ => .ok .none

/-- The `depth` property: `depths = [0]`, extended with `child.depth` for
each child that is a `QuadTree` instance, then `1 + max(depths)`.  The
model returns 0 on values that are not `QuadTree` instances, which renders
the per-child `isinstance` guard: a non-tree child contributes 0, exactly
like the seed entry `0`. -/
def depth : PyVal → Nat
  | .tree a b c d =>
      1 + max (max (depth a) (depth b)) (max (depth c) (depth d))
  | _ => 0

/-- The flat sample input `[0, 1, 1, 0]` from the specification. -/
def sampleFlat : PyVal := .list [.int 0, .int 1, .int 1, .int 0]

/-- The nested sample input `[[1,0,0,1],[0,0,1,0],[1,1,0,0],[0,1,1,0]]`
from the specification. -/
def sampleNested : PyVal :=
  .list [.list [.int 1, .int 0, .int 0, .int 1],
         .list [.int 0, .int 0, .int 1, .int 0],
         .list [.int 1, .int 1, .int 0, .int 0],
         .list [.int 0, .int 1, .int 1, .int 0]]

/-- The depth rule stated by the specification for the nested sequence and
the tree it denotes: a leaf alone has depth 1, and a group of four has
depth `1 + max` of the depths of its four elements.  (Written from the
specification's words, to be compared with the source's `depth`.) -/
def specDepth : PyVal → Nat
  | .int _ => 1
  | .list [a, b, c, d] =>
      1 + max (max (specDepth a) (specDepth b))
            (max (specDepth c) (specDepth d))
  | _ => 0

/-- A scalar leaf entry holding 0 or 1. -/
def isLeaf01 : PyVal → Bool
  | .int n => n == 0 || n == 1
  | _ => false

/-- Well-formed serialized input: a group of exactly 4 elements that are
either all scalar leaves 0/1 or all themselves well-formed groups
(homogeneous siblings, per the specification's data model). -/
def wfH : PyVal → Bool
  | .list [a, b, c, d] =>
      (isLeaf01 a && isLeaf01 b && isLeaf01 c && isLeaf01 d) ||
      (a.isList && b.isList && c.isList && d.isList &&
       wfH a && wfH b && wfH c && wfH d)
  | _ => false

/-- A well-formed child of a constructed node: a scalar 0/1 leaf value or a
`QuadTree` instance all of whose own children are well-formed. -/
def wfChild : PyVal → Bool
  | .int n => n == 0 || n == 1
  | .tree a b c d => wfChild a && wfChild b && wfChild c && wfChild d
  | _ => false

/-- A fully well-formed constructed tree: a `QuadTree` instance whose four
children are all well-formed (scalar 0/1 leaves or further such nodes). -/
def wfTree : PyVal → Bool
  | .tree a b c d => wfChild a && wfChild b && wfChild c && wfChild d
  | _ => false

/-- The two fill colors used by `TkQuadTree.draw`. -/
inductive Color : Type where
  | lightgrey : Color
  | black : Color
deriving DecidableEq, Repr

/-- One `canvas.create_rectangle(x1, y1, x2, y2, fill=...)` call issued by
`TkQuadTree.draw`. -/
structure Rect where
  x1 : Nat
  y1 : Nat
  x2 : Nat
  y2 : Nat
  fill : Color
deriving DecidableEq, Repr

/-- `TkQuadTree.draw(x, y, size, node)`: on a list, recurse with
`half_size = size // 2` into `node[0]` at `(x, y)`, `node[1]` at
`(x + half_size, y)`, `node[2]` at `(x, y + half_size)` and `node[3]` at
`(x + half_size, y + half_size)`; on an integer, issue one rectangle of
side `size` at `(x, y)`, `lightgrey` for 0 and `black` otherwise; on any
other value, draw nothing.  The model returns the list of issued rectangle
calls in order.  A list of fewer than four items would raise `IndexError`
in the source and is rendered as no calls here; no claim touches it. -/
def draw : Nat → Nat → Nat → PyVal → List Rect
  | x, y, size, .list (n0 :: n1 :: n2 :: n3 :: _) =>
      let half_size := size / 2
      draw x y half_size n0 ++
      draw (x + half_size) y half_size n1 ++
      draw x (y + half_size) half_size n2 ++
      draw (x + half_size) (y + half_size) half_size n3
  | _, _, _, .list _ => []
  | x, y, size, .int n =>
      [⟨x, y, x + size, y + size, if n == 0 then .lightgrey else .black⟩]
  | _, _, _, _ => []

/-- `QuadTree.from_file(filename)`.  The file system (`open` + `read`) and
the literal evaluator (`eval`) are external collaborators, passed as
functions; `parent_directory` stands for the path computed from
`__file__`.  The source immediately overwrites its `filename` parameter
with the fixed relative path before joining and reading. -/
def from_file (readTxt : String → Option String)
    (evalLiteral : String → Option PyVal)
    (parent_directory : String) (filename : String) : Except PyErr PyVal :=
  let filename := "../files/quadtree-easy.txt"
  let txt_file := parent_directory ++ "/files/" ++ filename
  match readTxt txt_file with
  | Option.none => .error .ioError
  | Option.some contents =>
    match evalLiteral contents with
    | Option.none => .error .parseError
    | Option.some data => from_list data

/-- Unfolding of `from_list` on a 4-element group whose first element is a
list: the four children are the recursive results, with exceptions
propagated left to right. -/
lemma from_list_quad_list (a b c d : PyVal) (h : a.isList = true) :
    from_list (.list [a, b, c, d]) =
      (from_list a).bind fun ta => (from_list b).bind fun tb =>
        (from_list c).bind fun tc => (from_list d).bind fun td =>
          Except.ok (.tree ta tb tc td) := by
  rw [from_list]
  simp [h, Bind.bind]

/-- Unfolding of `from_list` on a 4-element group whose first element is
not a list: `QuadTree(*data)` packs the four raw elements as children. -/
lemma from_list_quad_scalar (a b c d : PyVal) (h : a.isList = false) :
    from_list (.list [a, b, c, d]) = Except.ok (.tree a b c d) := by
  rw [from_list]
  simp [h]

/-- A value accepted by `isLeaf01` is an integer literal. -/
lemma isLeaf01_int {v : PyVal} (h : isLeaf01 v = true) :
    ∃ n : Int, v = .int n := by
  cases v with
  | int n => exact ⟨n, rfl⟩
  | list xs => simp [isLeaf01] at h
  | tree a b c d => simp [isLeaf01] at h
  | none => simp [isLeaf01] at h

/-- A scalar 0/1 leaf entry is not a list. -/
lemma isLeaf01_not_isList {v : PyVal} (h : isLeaf01 v = true) :
    v.isList = false := by
  obtain ⟨n, rfl⟩ := isLeaf01_int h
  rfl

/-- A scalar 0/1 leaf entry is a well-formed child. -/
lemma wfChild_of_isLeaf01 {v : PyVal} (h : isLeaf01 v = true) :
    wfChild v = true := by
  obtain ⟨n, rfl⟩ := isLeaf01_int h
  simpa [wfChild, isLeaf01] using h

/-- A well-formed tree is in particular a well-formed child. -/
lemma wfChild_of_wfTree {t : PyVal} (h : wfTree t = true) :
    wfChild t = true := by
  cases t with
  | tree a b c d => simpa [wfChild, wfTree] using h
  | int n => simp [wfTree] at h
  | list xs => simp [wfTree] at h
  | none => simp [wfTree] at h

/-- Sequencing in the `Except` monad ends in an error whenever the
continuation always does, whatever the first step produces. -/
lemma bind_error_exists {e : Except PyErr PyVal}
    {k : PyVal → Except PyErr PyVal}
    (h : ∀ a, ∃ w, k a = Except.error w) :
    ∃ w, (e >>= k) = Except.error w := by
  cases e with
  | error w => exact ⟨w, rfl⟩
  | ok a => simpa [Bind.bind, Except.bind] using h a

/-- On every well-formed homogeneous input, `from_list` succeeds, the
resulting tree is fully well-formed, and its `depth` is one less than the
depth assigned to the input by the specification's rule. -/
lemma from_list_wf : ∀ S : PyVal, wfH S = true →
    ∃ t, from_list S = Except.ok t ∧ wfTree t = true ∧
      depth t + 1 = specDepth S := by
  have main : ∀ (n : Nat) (S : PyVal), sizeOf S ≤ n → wfH S = true →
      ∃ t, from_list S = Except.ok t ∧ wfTree t = true ∧
        depth t + 1 = specDepth S := by
    intro n
    induction n with
    | zero =>
      intro S hs _
      exfalso
      cases S <;> simp_arith at hs
    | succ n ih =>
      intro S hs hw
      rcases S with n0 | xs | ⟨a, b, c, d⟩ | _
      · simp [wfH] at hw
      · rcases xs with _ | ⟨a, _ | ⟨b, _ | ⟨c, _ | ⟨d, _ | ⟨e, rest⟩⟩⟩⟩⟩
        · simp [wfH] at hw
        · simp [wfH] at hw
        · simp [wfH] at hw
        · simp [wfH] at hw
        · -- the group [a, b, c, d]
          rw [wfH] at hw
          simp only [Bool.or_eq_true, Bool.and_eq_true] at hw
          rcases hw with ⟨⟨⟨ha, hb⟩, hc⟩, hd⟩ |
            ⟨⟨⟨⟨⟨⟨⟨la, lb⟩, lc⟩, ld⟩, wa⟩, wb⟩, wc⟩, wd⟩
          · -- four scalar 0/1 leaves
            obtain ⟨na, rfl⟩ := isLeaf01_int ha
            obtain ⟨nb, rfl⟩ := isLeaf01_int hb
            obtain ⟨nc, rfl⟩ := isLeaf01_int hc
            obtain ⟨nd, rfl⟩ := isLeaf01_int hd
            refine ⟨.tree (.int na) (.int nb) (.int nc) (.int nd), ?_, ?_, ?_⟩
            · exact from_list_quad_scalar _ _ _ _ rfl
            · simp only [wfTree, Bool.and_eq_true]
              exact ⟨⟨⟨wfChild_of_isLeaf01 ha, wfChild_of_isLeaf01 hb⟩,
                wfChild_of_isLeaf01 hc⟩, wfChild_of_isLeaf01 hd⟩
            · simp [depth, specDepth]
          · -- four nested groups
            simp only [PyVal.list.sizeOf_spec, List.cons.sizeOf_spec,
              List.nil.sizeOf_spec] at hs
            obtain ⟨ta, fa, wta, da⟩ := ih a (by omega) wa
            obtain ⟨tb, fb, wtb, db⟩ := ih b (by omega) wb
            obtain ⟨tc, fc, wtc, dc⟩ := ih c (by omega) wc
            obtain ⟨td, fd, wtd, dd⟩ := ih d (by omega) wd
            refine ⟨.tree ta tb tc td, ?_, ?_, ?_⟩
            · rw [from_list_quad_list a b c d la]
              simp [fa, fb, fc, fd, Except.bind]
            · simp only [wfTree, Bool.and_eq_true]
              exact ⟨⟨⟨wfChild_of_wfTree wta, wfChild_of_wfTree wtb⟩,
                wfChild_of_wfTree wtc⟩, wfChild_of_wfTree wtd⟩
            · rw [specDepth]
              rw [depth]
              rw [← da, ← db, ← dc, ← dd, Nat.add_max_add_right,
                Nat.add_max_add_right, Nat.add_max_add_right]
              omega
        · simp [wfH] at hw
      · simp [wfH] at hw
      · simp [wfH] at hw
  intro S
  exact main (sizeOf S) S le_rfl

/-- C1 counterexample: on the input `[0, 1, 1, 0]` the tree built by
`from_list` has `depth` 1, not 2 as the claim states — `depth` seeds its
list with `[0]` and only recurses into children that are `QuadTree`
instances, so raw integer leaves contribute no level. -/
theorem C1_counterexample :
    (from_list sampleFlat).map depth = Except.ok 1 ∧
    (from_list sampleFlat).map depth ≠ Except.ok 2 := by
  constructor
  · simp [from_list, sampleFlat, PyVal.isList, depth, Except.map]
  · simp [from_list, sampleFlat, PyVal.isList, depth, Except.map]

/-- C1 (amended): for the input `[0, 1, 1, 0]`, `from_list` builds the node
`QuadTree(0, 1, 1, 0)` whose four children are the raw integers, and its
`depth` is 1. -/
theorem C1_theorem :
    from_list sampleFlat =
      Except.ok (.tree (.int 0) (.int 1) (.int 1) (.int 0)) ∧
    depth (.tree (.int 0) (.int 1) (.int 1) (.int 0)) = 1 := by
  constructor
  · simp [from_list, sampleFlat, PyVal.isList]
  · simp [depth]

/-- C2 counterexample: the nested sample is well formed with depth 3 under
the claim's rule (leaf depth 1, split one more than the maximum child),
yet the tree built by `from_list` reports `depth` 2. -/
theorem C2_counterexample :
    wfH sampleNested = true ∧
    specDepth sampleNested = 3 ∧
    (from_list sampleNested).map depth = Except.ok 2 ∧
    (from_list sampleNested).map depth ≠ Except.ok (specDepth sampleNested) := by
  refine ⟨?_, ?_, ?_, ?_⟩
  · simp [wfH, sampleNested, isLeaf01, PyVal.isList]
  · simp [specDepth, sampleNested]
  · simp [from_list, sampleNested, PyVal.isList, depth, Except.map,
      Bind.bind, Except.bind]
  · simp [from_list, sampleNested, PyVal.isList, depth, Except.map,
      Bind.bind, Except.bind, specDepth]

/-- C2 (amended): for every well-formed homogeneous nested sequence `S` of
depth `d` under the claim's rule (a leaf alone has depth 1, a split one
more than the maximum of its four children), the tree built by `from_list`
satisfies `depth = d - 1`: the source's `depth` counts only `QuadTree`
levels and assigns raw integer leaves no level of their own. -/
theorem C2_theorem : ∀ S : PyVal, wfH S = true →
    (from_list S).map depth = Except.ok (specDepth S - 1) := by
  intro S hS
  obtain ⟨t, hf, _, hd⟩ := from_list_wf S hS
  rw [hf]
  simp only [Except.map]
  rw [Except.ok.injEq]
  omega

/-- C2 witness: the amended statement evaluated on the nested sample. -/
theorem C2_witness :
    wfH sampleNested = true ∧
    (from_list sampleNested).map depth = Except.ok (specDepth sampleNested - 1) :=
  ⟨by simp [wfH, sampleNested, isLeaf01, PyVal.isList],
   C2_theorem sampleNested (by simp [wfH, sampleNested, isLeaf01, PyVal.isList])⟩

/-- C3 counterexample: on the group `[0, 1, 1, 0]` over the 400×400 square,
the third rectangle issued by `draw` — for child index 2, holding value 1 —
covers the bottom-left quadrant `(0, 200)–(200, 400)`, not the
bottom-right quadrant `(200, 200)–(400, 400)` the claim assigns to index
2: the source recurses into `node[2]` at `(x, y + half_size)` and into
`node[3]` at `(x + half_size, y + half_size)`. -/
theorem C3_counterexample :
    draw 0 0 400 sampleFlat =
      [⟨0, 0, 200, 200, .lightgrey⟩, ⟨200, 0, 400, 200, .black⟩,
       ⟨0, 200, 200, 400, .black⟩, ⟨200, 200, 400, 400, .lightgrey⟩] ∧
    (draw 0 0 400 sampleFlat).get? 2 ≠
      some ⟨200, 200, 400, 400, Color.black⟩ := by
  constructor
  · simp [draw, sampleFlat]
  · simp [draw, sampleFlat]

/-- C3 (amended): `draw` quarters the bounding square in the fixed order
top-left, top-right, bottom-left, bottom-right — child index 2 in the
bottom-left quadrant and child index 3 in the bottom-right — halving the
size at each level; on the depth-2 sample over a 400×400 square it issues
exactly 16 leaf rectangles, each 100×100, with quadrant origins following
that order at both levels. -/
theorem C3_theorem :
    (∀ (x y size : Nat) (n0 n1 n2 n3 : PyVal) (rest : List PyVal),
        draw x y size (.list (n0 :: n1 :: n2 :: n3 :: rest)) =
          draw x y (size / 2) n0 ++
          draw (x + size / 2) y (size / 2) n1 ++
          draw x (y + size / 2) (size / 2) n2 ++
          draw (x + size / 2) (y + size / 2) (size / 2) n3) ∧
    draw 0 0 400 sampleNested =
      [⟨0, 0, 100, 100, .black⟩, ⟨100, 0, 200, 100, .lightgrey⟩,
       ⟨0, 100, 100, 200, .lightgrey⟩, ⟨100, 100, 200, 200, .black⟩,
       ⟨200, 0, 300, 100, .lightgrey⟩, ⟨300, 0, 400, 100, .lightgrey⟩,
       ⟨200, 100, 300, 200, .black⟩, ⟨300, 100, 400, 200, .lightgrey⟩,
       ⟨0, 200, 100, 300, .black⟩, ⟨100, 200, 200, 300, .black⟩,
       ⟨0, 300, 100, 400, .lightgrey⟩, ⟨100, 300, 200, 400, .lightgrey⟩,
       ⟨200, 200, 300, 300, .lightgrey⟩, ⟨300, 200, 400, 300, .black⟩,
       ⟨200, 300, 300, 400, .black⟩, ⟨300, 300, 400, 400, .lightgrey⟩] ∧
    (draw 0 0 400 sampleNested).length = 16 ∧
    (draw 0 0 400 sampleNested).all
      (fun r => r.x2 == r.x1 + 100 && r.y2 == r.y1 + 100) = true := by
  refine ⟨?_, ?_, ?_, ?_⟩
  · intro x y size n0 n1 n2 n3 rest
    rw [draw]
  · simp [draw, sampleNested]
  · simp [draw, sampleNested]
  · simp [draw, sampleNested]

/-- C4 counterexample: the input `[1, [0, 1], 1, 1]` contains the
2-element group `[0, 1]`, yet `from_list` raises nothing and returns a
tree — the first element is a scalar, so `QuadTree(*data)` packs the raw
elements without ever recursing into the malformed nested group. -/
theorem C4_counterexample :
    from_list (.list [.int 1, .list [.int 0, .int 1], .int 1, .int 1]) =
      Except.ok (.tree (.int 1) (.list [.int 0, .int 1]) (.int 1) (.int 1)) :=
  from_list_quad_scalar _ _ _ _ rfl

/-- C4 (amended): whenever the group that `from_list` is actually applied
to has fewer or more than 4 elements, the call raises an exception
(`IndexError`, `TypeError` or `ValueError`, not a distinguished
`MalformedInput` kind) and returns no tree; malformed groups that the
recursion never reaches are not validated. -/
theorem C4_theorem : ∀ xs : List PyVal, xs.length ≠ 4 →
    ∃ e, from_list (.list xs) = Except.error e := by
  intro xs hlen
  rcases xs with _ | ⟨a, _ | ⟨b, _ | ⟨c, _ | ⟨d, _ | ⟨e, rest⟩⟩⟩⟩⟩
  · exact ⟨.indexError, by rw [from_list]⟩
  · rw [from_list]
    by_cases hl : a.isList
    · simp only [hl, if_true]
      exact bind_error_exists fun _ => ⟨.valueError, rfl⟩
    · simp only [hl, if_false]
      exact ⟨.typeError, rfl⟩
  · rw [from_list]
    by_cases hl : a.isList
    · simp only [hl, if_true]
      exact bind_error_exists fun _ =>
        bind_error_exists fun _ => ⟨.valueError, rfl⟩
    · simp only [hl, if_false]
      exact ⟨.typeError, rfl⟩
  · rw [from_list]
    by_cases hl : a.isList
    · simp only [hl, if_true]
      exact bind_error_exists fun _ => bind_error_exists fun _ =>
        bind_error_exists fun _ => ⟨.valueError, rfl⟩
    · simp only [hl, if_false]
      exact ⟨.typeError, rfl⟩
  · exact absurd rfl hlen
  · rw [from_list]
    by_cases hl : a.isList
    · simp only [hl, if_true]
      exact bind_error_exists fun _ => bind_error_exists fun _ =>
        bind_error_exists fun _ => bind_error_exists fun _ =>
          bind_error_exists fun _ => ⟨.valueError, rfl⟩
    · simp only [hl, if_false]
      exact ⟨.typeError, rfl⟩

/-- C4 witness: the amended statement evaluated on the 2-element group
`[0, 1]`. -/
theorem C4_witness :
    ([PyVal.int 0, PyVal.int 1] : List PyVal).length ≠ 4 ∧
    ∃ e, from_list (.list [.int 0, .int 1]) = Except.error e :=
  ⟨by decide, C4_theorem [.int 0, .int 1] (by decide)⟩

/-- C5 counterexample: the leaf position holding 2 in `[0, 1, 2, 0]` is
outside `{0, 1}`, yet `from_list` raises nothing and returns the tree
`QuadTree(0, 1, 2, 0)` — the source never inspects leaf values. -/
theorem C5_counterexample :
    from_list (.list [.int 0, .int 1, .int 2, .int 0]) =
      Except.ok (.tree (.int 0) (.int 1) (.int 2) (.int 0)) ∧
    isLeaf01 (.int 2) = false :=
  ⟨from_list_quad_scalar _ _ _ _ rfl, rfl⟩

/-- C5 (amended): `from_list` performs no validation of leaf values: on any
4-element group whose first element is not a list, it returns the node
whose children are the four raw elements unchanged, whatever values they
hold. -/
theorem C5_theorem : ∀ a b c d : PyVal, a.isList = false →
    from_list (.list [a, b, c, d]) = Except.ok (.tree a b c d) :=
  fun a b c d h => from_list_quad_scalar a b c d h

/-- C5 witness: the amended statement evaluated on `[0, 1, 2, 0]`. -/
theorem C5_witness :
    PyVal.isList (.int 0) = false ∧
    from_list (.list [.int 0, .int 1, .int 2, .int 0]) =
      Except.ok (.tree (.int 0) (.int 1) (.int 2) (.int 0)) :=
  ⟨rfl, C5_theorem (.int 0) (.int 1) (.int 2) (.int 0) rfl⟩

/-- C6: `from_file` overwrites its `filename` parameter with the fixed
path `../files/quadtree-easy.txt` before reading, so for any two filename
arguments — with the same file system, literal evaluator and script
directory — it reads the same path and produces the same result. -/
theorem C6_theorem :
    ∀ (readTxt : String → Option String)
      (evalLiteral : String → Option PyVal)
      (parent_directory f g : String),
      from_file readTxt evalLiteral parent_directory f =
        from_file readTxt evalLiteral parent_directory g :=
  fun _ _ _ _ _ => rfl

/-- C7 counterexample: on the inconsistently nested group
`[[0, 1, 1, 0], 1, 1, 1]` (list first, scalar siblings), `from_list` does
not fail: it returns a tree whose last three children are `None` — the
recursive calls on the scalars fall through the `isinstance` test — so
construction is not all-or-nothing and the returned tree is not
well-formed. -/
theorem C7_counterexample :
    from_list (.list [.list [.int 0, .int 1, .int 1, .int 0],
        .int 1, .int 1, .int 1]) =
      Except.ok (.tree (.tree (.int 0) (.int 1) (.int 1) (.int 0))
        .none .none .none) ∧
    wfTree (.tree (.tree (.int 0) (.int 1) (.int 1) (.int 0))
        .none .none .none) = false := by
  constructor
  · rw [from_list_quad_list (.list [.int 0, .int 1, .int 1, .int 0])
      (.int 1) (.int 1) (.int 1) rfl]
    simp [from_list, PyVal.isList, Bind.bind, Except.bind]
  · simp [wfTree, wfChild]

/-- C7 (amended): on well-formed homogeneous input `from_list` returns a
fully well-formed tree, but construction is not all-or-nothing in general:
a list-first group with scalar siblings yields a tree with `None` in the
sibling positions instead of failing. -/
theorem C7_theorem :
    (∀ S : PyVal, wfH S = true →
      ∃ t, from_list S = Except.ok t ∧ wfTree t = true) ∧
    from_list (.list [.list [.int 1, .int 1, .int 1, .int 1],
        .int 0, .int 0, .int 0]) =
      Except.ok (.tree (.tree (.int 1) (.int 1) (.int 1) (.int 1))
        .none .none .none) := by
  constructor
  · intro S hS
    obtain ⟨t, hf, hw, _⟩ := from_list_wf S hS
    exact ⟨t, hf, hw⟩
  · rw [from_list_quad_list (.list [.int 1, .int 1, .int 1, .int 1])
      (.int 0) (.int 0) (.int 0) rfl]
    simp [from_list, PyVal.isList, Bind.bind, Except.bind]

/-- C7 witness: the amended statement evaluated on the flat sample. -/
theorem C7_witness :
    wfH sampleFlat = true ∧
    ∃ t, from_list sampleFlat = Except.ok t ∧ wfTree t = true :=
  ⟨by simp [wfH, sampleFlat, isLeaf01],
   C7_theorem.1 sampleFlat (by simp [wfH, sampleFlat, isLeaf01])⟩

/-- C8: on a 4-element group, `from_list` decides its branch by the type
of the first element alone: if it is a list, the four children are the
recursive results assembled positionally (order `hg`, `hd`, `bd`, `bg` —
top-left, top-right, bottom-right, bottom-left); otherwise the four raw
elements become the children directly. -/
theorem C8_theorem : ∀ a b c d : PyVal,
    (a.isList = true →
      from_list (.list [a, b, c, d]) =
        (from_list a).bind fun ta => (from_list b).bind fun tb =>
          (from_list c).bind fun tc => (from_list d).bind fun td =>
            Except.ok (.tree ta tb tc td)) ∧
    (a.isList = false →
      from_list (.list [a, b, c, d]) = Except.ok (.tree a b c d)) :=
  fun a b c d =>
    ⟨from_list_quad_list a b c d, from_list_quad_scalar a b c d⟩

/-- C8 witness: the scalar branch evaluated on the group `[1, 0, 0, 1]`. -/
theorem C8_witness :
    PyVal.isList (.int 1) = false ∧
    from_list (.list [.int 1, .int 0, .int 0, .int 1]) =
      Except.ok (.tree (.int 1) (.int 0) (.int 0) (.int 1)) :=
  ⟨rfl, (C8_theorem (.int 1) (.int 0) (.int 0) (.int 1)).2 rfl⟩

/-- C9: on the empty list, `from_list` evaluates `data[0]` before any
other check, so it raises `IndexError`: no tree results and no
structured malformed-input error is reported. -/
theorem C9_theorem :
    from_list (.list []) = Except.error .indexError := by
  rw [from_list]

/-- C10: a non-list argument falls through the single `isinstance` test of
`from_list`, which therefore returns `None` — no tree and no exception;
consequently a scalar sibling inside a list-first group contributes `None`
as the corresponding child of the assembled node. -/
theorem C10_theorem :
    (∀ v : PyVal, v.isList = false → from_list v = Except.ok .none) ∧
    from_list (.list [.list [.int 0, .int 0, .int 0, .int 0],
        .int 1, .int 0, .int 1]) =
      Except.ok (.tree (.tree (.int 0) (.int 0) (.int 0) (.int 0))
        .none .none .none) := by
  constructor
  · intro v hv
    cases v with
    | int n => simp [from_list]
    | list xs => simp [PyVal.isList] at hv
    | tree a b c d => simp [from_list]
    | none => simp [from_list]
  · rw [from_list_quad_list (.list [.int 0, .int 0, .int 0, .int 0])
      (.int 1) (.int 0) (.int 1) rfl]
    simp [from_list, PyVal.isList, Bind.bind, Except.bind]

/-- C10 witness: the first part of the statement evaluated on the bare
integer 5. -/
theorem C10_witness :
    PyVal.isList (.int 5) = false ∧ from_list (.int 5) = Except.ok .none :=
  ⟨rfl, C10_theorem.1 (.int 5) rfl⟩

end Quadtree
